import Mathlib

/-!
Darion front end: FileSorter and AIAgentChat.

A shallow embedding of the two React components of the Darion front end
(`components/FileSorter.js`, `components/AIAgentChat.js`).

* JavaScript values coming back from `response.json()` are the type `JVal`.
  Numbers are exact integers: fractional numbers and the rounding of IEEE
  doubles are outside the embedding.
* A thrown JavaScript error is modelled by its `message` string, carried in
  `Except String`.
* An `async` handler is split at its `await`: a *start* function (everything
  up to the `fetch` call, returning the request that is sent) and a
  *completion* function (everything after the `await`, given how the request
  ended).
-/

namespace Darion

/-! ## JavaScript values -/

/-- Values produced by `response.json()`: the JSON data model plus
`undefined`, which is what reading a missing property yields. The field list
of `obj` is the object's own properties in the order `Object.entries`
enumerates them. A `num n` is the JavaScript number whose value is the integer
`n`. -/
inductive JVal where
  | undefined
  | null
  | bool (b : Bool)
  | num (n : Int)
  | str (s : String)
  | arr (items : List JVal)
  | obj (fields : List (String × JVal))

namespace JVal

/-- JavaScript truthiness (`!!v`). -/
def truthy : JVal → Bool
  | undefined => false
  | null => false
  | bool b => b
  | num n => n != 0
  | str s => s != ""
  | arr _ => true
  | obj _ => true

/-- The test `v == null` is true of `null` and `undefined` only. -/
def isNullish : JVal → Bool
  | undefined => true
  | null => true
  | _ => false

end JVal

/-- Message of the `TypeError` raised when a property of `null` or
`undefined` is read (the wording is the engine's; only the fact that something
is thrown matters below). -/
def nullishReadMessage (whole key : String) : String :=
  "Cannot read properties of " ++ whole ++ " (reading '" ++ key ++ "')"

/-- Own-property lookup in an object's field list. -/
def lookupField (key : String) : List (String × JVal) → JVal
  | [] => JVal.undefined
  | (k, v) :: rest => if k = key then v else lookupField key rest

/-- Property read `v.key` for the property names the components read
(`statistics`, `total_files`, `total_size`, `categories`, `count`, `message`,
`response`): none of them is defined on strings, numbers, booleans or arrays,
so only plain objects can yield a value, and `null`/`undefined` throw. -/
def getField (v : JVal) (key : String) : Except String JVal :=
  match v with
  | JVal.undefined => Except.error (nullishReadMessage "undefined" key)
  | JVal.null => Except.error (nullishReadMessage "null" key)
  | JVal.obj fields => Except.ok (lookupField key fields)
  | _ => Except.ok JVal.undefined

/-- Optional chaining `v?.key`: `undefined` when `v` is `null` or `undefined`. -/
def getFieldOpt (v : JVal) (key : String) : JVal :=
  match v with
  | JVal.obj fields => lookupField key fields
  | _ => JVal.undefined

/-- Pairs each element with its index rendered as a property name. -/
def indexed (start : Nat) : List JVal → List (String × JVal)
  | [] => []
  | x :: xs => (toString start, x) :: indexed (start + 1) xs

/-- The call `Object.entries(v)`: throws on `null` and `undefined`, lists an
object's own fields, the index/element pairs of an array, and nothing for a
number or boolean. For a string it lists index/character pairs (exact for
strings of Basic Multilingual Plane characters, where a character is one
UTF-16 unit). -/
def objectEntries : JVal → Except String (List (String × JVal))
  | JVal.undefined => Except.error "Cannot convert undefined or null to object"
  | JVal.null => Except.error "Cannot convert undefined or null to object"
  | JVal.obj fields => Except.ok fields
  | JVal.arr items => Except.ok (indexed 0 items)
  | JVal.str s => Except.ok (indexed 0 (s.data.map fun c => JVal.str (String.singleton c)))
  | _ => Except.ok []

mutual
/-- JavaScript `String(v)` (the conversion `new Error(v)` applies to its
message). Exact for integers below `10 ^ 21` in absolute value (from there on
JavaScript prints the exponent form) and for objects without an own member
named `toString`. -/
def jsToString : JVal → String
  | JVal.undefined => "undefined"
  | JVal.null => "null"
  | JVal.bool b => if b then "true" else "false"
  | JVal.num n => toString n
  | JVal.str s => s
  | JVal.arr items => joinItems items
  | JVal.obj _ => "[object Object]"
/-- The default `Array.prototype.join`: elements separated by commas, `null`
and `undefined` elements contributing the empty string. -/
def joinItems : List JVal → String
  | [] => ""
  | [x] => itemString x
  | x :: y :: rest => itemString x ++ "," ++ joinItems (y :: rest)
/-- One element of a joined array. -/
def itemString : JVal → String
  | JVal.undefined => ""
  | JVal.null => ""
  | JVal.bool b => if b then "true" else "false"
  | JVal.num n => toString n
  | JVal.str s => s
  | JVal.arr items => joinItems items
  | JVal.obj _ => "[object Object]"
end

/-! ## formatSize (FileSorter.js, lines 59-64) -/

/-- The array `sizes` of `formatSize`. -/
def sizes : List String := ["Bytes", "KB", "MB", "GB"]

/-- Array read `sizes[i]` followed by string concatenation: an index outside
the array reads `undefined`, which concatenates as the text `undefined`. -/
def sizesAt (i : Nat) : String :=
  match sizes.get? i with
  | some label => label
  | none => "undefined"

/-- Worker of `floorLog1024`, by repeated division. -/
def floorLog1024Aux : Nat → Nat → Nat
  | 0, _ => 0
  | fuel + 1, n => if n < 1024 then 0 else floorLog1024Aux fuel (n / 1024) + 1

/-- The value of `parseInt(Math.floor(Math.log(bytes) / Math.log(1024)))` for
a positive integer `bytes`, in exact arithmetic: the greatest `i` with
`1024 ^ i ≤ bytes`. The source divides two double-precision logarithms; the
rounding of that quotient is outside the embedding. -/
def floorLog1024 (bytes : Nat) : Nat := floorLog1024Aux bytes bytes

/-- The value of `Math.round(p / q)` for naturals `p`, `q` with `q > 0`, in
exact arithmetic. `Math.round` takes one argument and rounds to the nearest
integer, halves going up: `floor(p / q + 1/2)`. -/
def mathRound (p q : Nat) : Nat := (2 * p + q) / (2 * q)

/-- The function `formatSize` on a non-negative integer byte count. The second
argument `2` the source passes to `Math.round` is ignored by JavaScript. -/
def formatSize (bytes : Nat) : String :=
  if bytes = 0 then "0 Byte"
  else
    let i := floorLog1024 bytes
    toString (mathRound bytes (1024 ^ i)) ++ " " ++ sizesAt i

/-- The call `formatSize(v)` for a value read from the response, where the
embedding determines its text; `none` where it does not. `bytes === 0` holds of
the number 0 only; `Math.log` then converts its argument to a number: a
negative number, `undefined`, `null` and `false` all lead to `NaN` for `i` and
for the quotient, which renders as `NaN undefined`, and `true` converts to 1.
Not determined: an integer from `1024 ^ 4` up (the index then depends on the
rounding of the quotient of two double logarithms, and integers above `2 ^ 53`
are not all numbers), and strings, arrays and objects (they are converted
through the string-to-number grammar and the object-to-primitive protocol). -/
def formatSizeOf : JVal → Option String
  | JVal.num n =>
    if n < 0 then some "NaN undefined"
    else if n < 1024 ^ 4 then some (formatSize n.toNat)
    else none
  | JVal.bool true => some (formatSize 1)
  | JVal.bool false => some "NaN undefined"
  | JVal.undefined => some "NaN undefined"
  | JVal.null => some "NaN undefined"
  | JVal.obj _ => none
  | JVal.str _ => none
  | JVal.arr _ => none

/-- Whether a value is an integer byte count `n` with `0 ≤ n < 1024 ^ 4`. -/
def sizeInRange : JVal → Bool
  | JVal.num n => decide (0 ≤ n) && decide (n < 1024 ^ 4)
  | _ => false

mutual
/-- Whether React accepts a value as a child (`{value}` in JSX): text for
numbers and strings, nothing for `null`, `undefined` and booleans, the elements
in turn for an array; a plain object is refused. -/
def validReactChild : JVal → Bool
  | JVal.obj _ => false
  | JVal.arr items => validReactChildren items
  | _ => true
/-- Whether React accepts every element of an array child. -/
def validReactChildren : List JVal → Bool
  | [] => true
  | item :: rest => validReactChild item && validReactChildren rest
end

/-- Message of the error React throws while rendering when a child is a plain
object (React's text goes on with the keys of the object; only the fact that
rendering throws matters below). -/
def invalidChildMessage : String := "Objects are not valid as a React child"

/-! ## HTTP outcomes -/

/-- How a `fetch` call ends: its promise rejects (network failure) with an
error message, or it resolves to a response with a status code and a body;
`response.json()` on that body either yields a value or rejects with a
message. -/
inductive FetchResult where
  | rejected (message : String)
  | response (status : Nat) (json : Except String JVal)

/-- The flag `response.ok`: the status is in the range 200-299. -/
def statusOk (status : Nat) : Bool := decide (200 ≤ status) && decide (status ≤ 299)

/-! ## FileSorter.js -/

/-- One entry of the `sortingCriteria` array. -/
structure CriteriaOption where
  value : String
  label : String
  description : String

/-- The array `sortingCriteria` (lines 14-19). -/
def sortingCriteria : List CriteriaOption :=
  [ { value := "type", label := "File Type",
      description := "Sort files by their type (images, documents, etc.)" },
    { value := "date", label := "Date", description := "Sort files by creation date" },
    { value := "size", label := "Size", description := "Sort files by their size" },
    { value := "name", label := "Name", description := "Sort files alphabetically" } ]

/-- The seven `useState` cells of the component (lines 6-12); `null` in
`error` is `none`. -/
structure FileSorterState where
  sourceDir : String
  destDir : String
  criteria : String
  recursive : Bool
  isLoading : Bool
  result : JVal
  error : Option String

/-- The initial values passed to `useState`. -/
def FileSorterState.initial : FileSorterState :=
  { sourceDir := "", destDir := "", criteria := "type", recursive := true,
    isLoading := false, result := JVal.null, error := none }

/-- The object handed to `JSON.stringify` as the request body (lines 33-38). -/
def sortRequestBody (s : FileSorterState) : JVal :=
  JVal.obj [("source_dir", JVal.str s.sourceDir), ("dest_dir", JVal.str s.destDir),
    ("criteria", JVal.str s.criteria), ("recursive", JVal.bool s.recursive)]

/-- The part of `handleSort` before the `await` (lines 22-39): the three state
updates, and the body of the POST to `/api/sort-files`. -/
def handleSortStart (s : FileSorterState) : FileSorterState × JVal :=
  ({ s with isLoading := true, error := none, result := JVal.null }, sortRequestBody s)

/-- The `try` block of `handleSort` after the `fetch` (lines 41-47): the value
given to `setResult`, or the message of the error that reaches `catch`. The
body is parsed before `response.ok` is looked at. -/
def sortOutcome (r : FetchResult) : Except String JVal :=
  match r with
  | FetchResult.rejected message => Except.error message
  | FetchResult.response status json =>
    match json with
    | Except.error message => Except.error message
    | Except.ok data =>
      if statusOk status then Except.ok data
      else
        match getField data "message" with
        | Except.error message => Except.error message
        | Except.ok m =>
          Except.error (if m.truthy then jsToString m else "Failed to sort files")

/-- The part of `handleSort` after the `await` (lines 41-52), run on the state
current when the request settles. -/
def handleSortSettle (s : FileSorterState) (r : FetchResult) : FileSorterState :=
  match sortOutcome r with
  | Except.ok data => { s with result := data, isLoading := false }
  | Except.error message => { s with error := some message, isLoading := false }

/-- A whole call of `handleSort` with nothing happening in between. -/
def handleSort (s : FileSorterState) (r : FetchResult) : FileSorterState :=
  handleSortSettle (handleSortStart s).1 r

/-- One category card (lines 84-88): the heading, the value shown after
`Files:` and the text shown after `Size:`. -/
structure CategoryCard where
  category : String
  count : JVal
  size : Option String

/-- What `renderStatistics` puts on screen (lines 66-93): the value shown under
`Total Files`, the text under `Total Size`, and the category cards. A text of
`none` is one the embedding does not determine (see `formatSizeOf`). -/
structure StatisticsView where
  totalFiles : JVal
  totalSize : Option String
  cards : List CategoryCard

/-- The elements built by the callback of `.map` at lines 83-89 over the
entries, left to right; reading `data.count` of a `null` entry throws. Whether
React can render `{data.count}` is decided later, in `renderStatistics`. -/
def cardElements : List (String × JVal) → Except String (List CategoryCard)
  | [] => Except.ok []
  | (category, data) :: rest =>
    match getField data "count" with
    | Except.error message => Except.error message
    | Except.ok count =>
      match getField data "total_size" with
      | Except.error message => Except.error message
      | Except.ok size =>
        match cardElements rest with
        | Except.error message => Except.error message
        | Except.ok cards =>
          Except.ok ({ category := category, count := count, size := formatSizeOf size } :: cards)

/-- The value the function `renderStatistics` (lines 55-94) returns on the
current `result`: `none` is the `return null` of line 56, an error is an
exception thrown by the function itself. -/
def statisticsElements (result : JVal) : Except String (Option StatisticsView) :=
  let stats := getFieldOpt result "statistics"
  if stats.truthy then
    match getField stats "total_files" with
    | Except.error message => Except.error message
    | Except.ok totalFiles =>
      match getField stats "total_size" with
      | Except.error message => Except.error message
      | Except.ok totalSize =>
        match getField stats "categories" with
        | Except.error message => Except.error message
        | Except.ok categories =>
          match objectEntries categories with
          | Except.error message => Except.error message
          | Except.ok entries =>
            match cardElements entries with
            | Except.error message => Except.error message
            | Except.ok cards =>
              Except.ok (some { totalFiles := totalFiles, totalSize := formatSizeOf totalSize,
                                cards := cards })
  else Except.ok none

/-- What `{renderStatistics()}` at line 228 comes to: the call of the function,
then React's rendering of the elements it returned. `none` is `null` (nothing
is shown), an error is an exception thrown while the component renders, either
by the function or by React when `{stats.total_files}` (line 72) or a
`{data.count}` (line 86) is a plain object. -/
def renderStatistics (result : JVal) : Except String (Option StatisticsView) :=
  match statisticsElements result with
  | Except.error message => Except.error message
  | Except.ok none => Except.ok none
  | Except.ok (some view) =>
    if validReactChild view.totalFiles &&
        view.cards.all (fun card => validReactChild card.count) then
      Except.ok (some view)
    else Except.error invalidChildMessage

/-- The component together with its `/api/sort-files` requests in flight (the
request bodies, oldest first). -/
structure FileSorterSys where
  ui : FileSorterState
  pending : List JVal

/-- The component freshly mounted. -/
def FileSorterSys.initial : FileSorterSys :=
  { ui := FileSorterState.initial, pending := [] }

/-- What can happen to the component: the four input handlers, a form submit,
and the settling of the `k`-th request in flight. `clickCriteria k` is a click
on the `k`-th card rendered from `sortingCriteria`. -/
inductive FileSorterEvent where
  | setSourceDir (v : String)
  | setDestDir (v : String)
  | clickCriteria (k : Nat)
  | setRecursive (b : Bool)
  | submit
  | settle (k : Nat) (r : FetchResult)

/-- One step of the component. With `guarded` a submit is accepted only while
the submit button is enabled (`disabled={isLoading}`, line 207); without it
`handleSort` may be invoked at any time. An event that cannot happen gives
`none`. -/
def fileSorterStep (guarded : Bool) (sys : FileSorterSys) :
    FileSorterEvent → Option FileSorterSys
  | FileSorterEvent.setSourceDir v => some { sys with ui := { sys.ui with sourceDir := v } }
  | FileSorterEvent.setDestDir v => some { sys with ui := { sys.ui with destDir := v } }
  | FileSorterEvent.clickCriteria k =>
    match sortingCriteria.get? k with
    | some option => some { sys with ui := { sys.ui with criteria := option.value } }
    | none => none
  | FileSorterEvent.setRecursive b => some { sys with ui := { sys.ui with recursive := b } }
  | FileSorterEvent.submit =>
    if guarded && sys.ui.isLoading then none
    else
      some { ui := (handleSortStart sys.ui).1,
             pending := sys.pending ++ [(handleSortStart sys.ui).2] }
  | FileSorterEvent.settle k r =>
    match sys.pending.get? k with
    | some _ => some { ui := handleSortSettle sys.ui r, pending := sys.pending.eraseIdx k }
    | none => none

/-- Runs a sequence of events from a state. -/
def fileSorterRun (guarded : Bool) : FileSorterSys → List FileSorterEvent → Option FileSorterSys
  | sys, [] => some sys
  | sys, e :: es =>
    match fileSorterStep guarded sys e with
    | some sys' => fileSorterRun guarded sys' es
    | none => none

/-! ## AIAgentChat.js -/

/-- The characters `String.prototype.trim` strips: ECMAScript WhiteSpace (tab,
vertical tab, form feed, the byte-order mark and the Unicode space separators)
and LineTerminator (line feed, carriage return, U+2028, U+2029). -/
def isJsWhitespace (c : Char) : Bool :=
  let n := c.toNat
  n == 0x09 || n == 0x0A || n == 0x0B || n == 0x0C || n == 0x0D || n == 0x20 ||
  n == 0xA0 || n == 0x1680 || (decide (0x2000 ≤ n) && decide (n ≤ 0x200A)) ||
  n == 0x2028 || n == 0x2029 || n == 0x202F || n == 0x205F || n == 0x3000 || n == 0xFEFF

/-- The method `String.prototype.trim`. -/
def jsTrim (s : String) : String :=
  String.mk ((s.data.dropWhile isJsWhitespace).reverse.dropWhile isJsWhitespace).reverse

/-- One entry of the transcript: `type` is `user` or `ai`, `content` is the
typed text or the `response` member of the reply, `timestamp` is the text
`formatTimestamp()` returned when the entry was built. -/
structure ChatMessage where
  type : String
  content : JVal
  timestamp : String

/-- The four `useState` cells of the component (lines 6-9); `null` in `error`
is `none`. -/
structure ChatState where
  messages : List ChatMessage
  input : String
  isLoading : Bool
  error : Option String

/-- The initial values passed to `useState`. -/
def ChatState.initial : ChatState :=
  { messages := [], input := "", isLoading := false, error := none }

/-- The requests the component issues: the POST to `/api/ai-query` with its
body, the GET of `/api/sync/all`, the POST to `/api/conversation/reset`. -/
inductive ChatRequest where
  | query (body : JVal)
  | syncAll
  | reset

/-- The part of `handleSubmit` before the `await` (lines 25-46). `now` is the
value of `formatTimestamp()`. Blank input returns at line 26: nothing is
sent and nothing changes. -/
def handleSubmitStart (s : ChatState) (now : String) : ChatState × Option ChatRequest :=
  if jsTrim s.input = "" then (s, none)
  else
    ({ messages := s.messages ++ [{ type := "user", content := JVal.str s.input,
                                    timestamp := now }],
       input := "", isLoading := true, error := none },
     some (ChatRequest.query (JVal.obj [("query", JVal.str s.input)])))

/-- The `try` block shared in shape by `handleSubmit` (lines 48-58) and
`handleSyncAll` (lines 86-96) after the `fetch`: the `content` of the message
to append, or the message of the error that reaches `catch`. Here
`response.ok` is tested before the body is parsed. The read of `data.response`
sits in the updater given to `setMessages`, which React runs while rendering:
for a 2xx body of `null` the component stops rendering instead of reaching
`catch`, so the error reported here for that one case is not a state the
component shows. -/
def replyContent (notOk : String) (r : FetchResult) : Except String JVal :=
  match r with
  | FetchResult.rejected message => Except.error message
  | FetchResult.response status json =>
    if statusOk status then
      match json with
      | Except.error message => Except.error message
      | Except.ok data => getField data "response"
    else Except.error notOk

/-- The part of `handleSubmit` after the `await` (lines 48-64). -/
def handleSubmitSettle (s : ChatState) (r : FetchResult) (now : String) : ChatState :=
  match replyContent "Failed to get response from AI" r with
  | Except.ok content =>
    { s with messages := s.messages ++ [{ type := "ai", content := content, timestamp := now }],
             isLoading := false }
  | Except.error _ =>
    { s with error := some "Failed to get response. Please try again.", isLoading := false }

/-- A whole call of `handleSubmit` with nothing happening in between: the
request sent, if any, and the final state (the state is final at once when no
request is sent). -/
def handleSubmit (s : ChatState) (sentAt : String) (r : FetchResult) (repliedAt : String) :
    Option ChatRequest × ChatState :=
  match handleSubmitStart s sentAt with
  | (s', some request) => (some request, handleSubmitSettle s' r repliedAt)
  | (s', none) => (none, s')

/-- The part of `handleReset` after the `await` (lines 72-77); nothing happens
before it. The response is not inspected: only a rejected `fetch` reaches
`catch`. -/
def handleResetSettle (s : ChatState) (r : FetchResult) : ChatState :=
  match r with
  | FetchResult.rejected _ => { s with error := some "Failed to reset conversation" }
  | FetchResult.response _ _ => { s with messages := [], error := none }

/-- A whole call of `handleReset` with nothing happening in between. -/
def handleReset (s : ChatState) (r : FetchResult) : ChatState :=
  handleResetSettle s r

/-- The part of `handleSyncAll` before the `await` (lines 81-85). -/
def handleSyncAllStart (s : ChatState) : ChatState :=
  { s with isLoading := true, error := none }

/-- The part of `handleSyncAll` after the `await` (lines 86-102). -/
def handleSyncAllSettle (s : ChatState) (r : FetchResult) (now : String) : ChatState :=
  match replyContent "Failed to sync services" r with
  | Except.ok content =>
    { s with messages := s.messages ++ [{ type := "ai", content := content, timestamp := now }],
             isLoading := false }
  | Except.error _ =>
    { s with error := some "Failed to sync services. Please try again.", isLoading := false }

/-- A whole call of `handleSyncAll` with nothing happening in between. -/
def handleSyncAll (s : ChatState) (r : FetchResult) (now : String) : ChatState :=
  handleSyncAllSettle (handleSyncAllStart s) r now

/-- The component together with its requests in flight, oldest first. -/
structure ChatSys where
  ui : ChatState
  pending : List ChatRequest

/-- The component freshly mounted. -/
def ChatSys.initial : ChatSys := { ui := ChatState.initial, pending := [] }

/-- What can happen to the component: typing, a form submit, a click on the
sync button, a click on the reset button, and the settling of the `k`-th
request in flight. `now` is the value of `formatTimestamp()` at that moment. -/
inductive ChatEvent where
  | setInput (v : String)
  | submit (now : String)
  | syncAll
  | reset
  | settle (k : Nat) (r : FetchResult) (now : String)

/-- Whether a request is the reset request. -/
def ChatRequest.isReset : ChatRequest → Bool
  | ChatRequest.reset => true
  | _ => false

/-- Whether a request is a POST to `/api/ai-query`. -/
def ChatRequest.isQuery : ChatRequest → Bool
  | ChatRequest.query _ => true
  | _ => false

/-- Whether a request is the GET of `/api/sync/all`. -/
def ChatRequest.isSync : ChatRequest → Bool
  | ChatRequest.syncAll => true
  | _ => false

/-- Whether a request was started by a handler that sets `isLoading`
(`handleSubmit`, `handleSyncAll`). -/
def ChatRequest.setsLoading : ChatRequest → Bool
  | ChatRequest.reset => false
  | _ => true

/-- Whether an event is a click on the sync button. -/
def ChatEvent.isSyncAll : ChatEvent → Bool
  | ChatEvent.syncAll => true
  | _ => false

/-- One step of the component. The text field is disabled while `isLoading`
(line 170) and the submit button while `isLoading || !input.trim()`
(line 174), so typing and submitting are accepted only then; the sync and
reset buttons (lines 111-124) have no `disabled` attribute and are accepted
always. An event that cannot happen gives `none`. -/
def chatStep (sys : ChatSys) : ChatEvent → Option ChatSys
  | ChatEvent.setInput v =>
    if sys.ui.isLoading then none
    else some { sys with ui := { sys.ui with input := v } }
  | ChatEvent.submit now =>
    if sys.ui.isLoading || jsTrim sys.ui.input = "" then none
    else
      match handleSubmitStart sys.ui now with
      | (s', some request) => some { ui := s', pending := sys.pending ++ [request] }
      | (s', none) => some { ui := s', pending := sys.pending }
  | ChatEvent.syncAll =>
    some { ui := handleSyncAllStart sys.ui, pending := sys.pending ++ [ChatRequest.syncAll] }
  | ChatEvent.reset =>
    some { ui := sys.ui, pending := sys.pending ++ [ChatRequest.reset] }
  | ChatEvent.settle k r now =>
    match sys.pending.get? k with
    | some (ChatRequest.query _) =>
      some { ui := handleSubmitSettle sys.ui r now, pending := sys.pending.eraseIdx k }
    | some ChatRequest.syncAll =>
      some { ui := handleSyncAllSettle sys.ui r now, pending := sys.pending.eraseIdx k }
    | some ChatRequest.reset =>
      some { ui := handleResetSettle sys.ui r, pending := sys.pending.eraseIdx k }
    | none => none

/-- Runs a sequence of events from a state. -/
def chatRun : ChatSys → List ChatEvent → Option ChatSys
  | sys, [] => some sys
  | sys, e :: es =>
    match chatStep sys e with
    | some sys' => chatRun sys' es
    | none => none

/-! ## The statistics engine behind /api/sort-files

The handler of `/api/sort-files` is not part of the front end: `handleSort`
only stores what it answers. The definitions of this section follow sections
3 and 4 of the specification. -/

/-- Modelled from the spec: the server-side engine is absent from the sources;
this is the FileEntry of section 3, one regular file found under the source
directory (path, byte size, last-modified timestamp, extension). -/
structure FileEntry where
  path : String
  size : Nat
  modified : Nat
  extension : String
deriving DecidableEq

/-- Modelled from the spec: the server-side engine is absent from the sources;
this is the content of a source directory as traversal meets it (section 4.1):
regular files, symbolic links and special files, and nested directories. -/
inductive FsNode where
  | file (entry : FileEntry)
  | special (path : String)
  | dir (name : String) (children : List FsNode)

/-- Modelled from the spec: the server-side engine is absent from the sources;
this is what traversal yields for one filesystem object: a regular file to
classify, or a path to record as `unsupported-file-type`. -/
inductive Visit where
  | regular (entry : FileEntry)
  | unsupported (path : String)
deriving DecidableEq

mutual
/-- Modelled from the spec: the server-side engine is absent from the sources;
this is the traversal of section 4.1 over the entries of a directory, in
directory order: with `recursive` nested directories are entered, otherwise
only direct children are visited; directories themselves are never visited. -/
def traverse (recursive : Bool) : List FsNode → List Visit
  | [] => []
  | node :: rest => traverseNode recursive node ++ traverse recursive rest
/-- Modelled from the spec: the server-side engine is absent from the sources;
this is the traversal of section 4.1 at one filesystem object. -/
def traverseNode (recursive : Bool) : FsNode → List Visit
  | FsNode.file entry => [Visit.regular entry]
  | FsNode.special path => [Visit.unsupported path]
  | FsNode.dir _ children => if recursive then traverse recursive children else []
end

/-- Modelled from the spec: the server-side engine is absent from the sources;
this is the CategoryStats of section 3, `count` a `uint` (no width is given:
unbounded here) and `totalSize` a `uint64`. -/
structure CategoryStats where
  count : Nat
  totalSize : Nat
deriving DecidableEq

/-- Modelled from the spec: the server-side engine is absent from the sources;
this is one element of the `failures` sequence of SortResult. -/
structure SortFailure where
  path : String
  reason : String
deriving DecidableEq

/-- Modelled from the spec: the server-side engine is absent from the sources;
this is the SortResult of section 3; `categories` is the mapping from Category
to CategoryStats, a category being created when its first file is placed. -/
structure SortResult where
  totalFiles : Nat
  totalSize : Nat
  categories : List (String × CategoryStats)
  failures : List SortFailure
deriving DecidableEq

/-- Modelled from the spec: the server-side engine is absent from the sources;
this is the result before any file is processed. -/
def SortResult.empty : SortResult :=
  { totalFiles := 0, totalSize := 0, categories := [], failures := [] }

/-- Modelled from the spec: the server-side engine is absent from the sources;
this is the update of section 4.4 on the mapping, `count += 1` and
`totalSize += entry.size` in 64-bit unsigned arithmetic, creating the category
on demand. -/
def bumpCategory (category : String) (size : Nat) :
    List (String × CategoryStats) → List (String × CategoryStats)
  | [] => [(category, { count := 1, totalSize := size % 2 ^ 64 })]
  | (c, stats) :: rest =>
    if c = category then
      (c, { count := stats.count + 1, totalSize := (stats.totalSize + size) % 2 ^ 64 }) :: rest
    else (c, stats) :: bumpCategory category size rest

/-- Modelled from the spec: the server-side engine is absent from the sources;
this is the processing of one visited object (sections 4.2 to 4.4): a symbolic
link or special file is recorded as `unsupported-file-type`; a regular file is
classified and placed, and on a successful placement the category and the
running totals are updated, otherwise the failure is recorded and processing
goes on. `classify` is the classification for the request's criterion and
`place` tells how the move of a file into its category ends (`none` for
success, else the reason). -/
def processVisit (classify : FileEntry → String) (place : FileEntry → String → Option String)
    (acc : SortResult) : Visit → SortResult
  | Visit.unsupported path =>
    { acc with failures := acc.failures ++ [{ path := path, reason := "unsupported-file-type" }] }
  | Visit.regular entry =>
    match place entry (classify entry) with
    | none =>
      { acc with totalFiles := acc.totalFiles + 1,
                 totalSize := (acc.totalSize + entry.size) % 2 ^ 64,
                 categories := bumpCategory (classify entry) entry.size acc.categories }
    | some reason =>
      { acc with failures := acc.failures ++ [{ path := entry.path, reason := reason }] }

/-- Modelled from the spec: the server-side engine is absent from the sources;
this is the engine of section 4 on an opened source directory: traversal, then
classification, placement and aggregation of every visited object in order. -/
def sortFiles (classify : FileEntry → String) (place : FileEntry → String → Option String)
    (recursive : Bool) (source : List FsNode) : SortResult :=
  (traverse recursive source).foldl (processVisit classify place) SortResult.empty

/-- Modelled from the spec: the server-side engine is absent from the sources;
this is the classification for the criterion `type` with the extension table
section 4.2 gives as its example: `.jpg`, `.png` are images, `.pdf`, `.docx`
are documents, any other extension is `other`. -/
def classifyByType (entry : FileEntry) : String :=
  if entry.extension = ".jpg" ∨ entry.extension = ".png" then "images"
  else if entry.extension = ".pdf" ∨ entry.extension = ".docx" then "documents"
  else "other"

/-- Modelled from the spec: the server-side engine is absent from the sources;
this is the byte size of the regular files among visited objects. -/
def visitedBytes : List Visit → Nat
  | [] => 0
  | Visit.regular entry :: rest => entry.size + visitedBytes rest
  | Visit.unsupported _ :: rest => visitedBytes rest

/-- Modelled from the spec: the server-side engine is absent from the sources;
this is `sum(categories[*].count)` of section 8. -/
def sumCounts (categories : List (String × CategoryStats)) : Nat :=
  (categories.map fun kv => kv.2.count).sum

/-- Modelled from the spec: the server-side engine is absent from the sources;
this is `sum(categories[*].total_size)` of section 8. -/
def sumSizes (categories : List (String × CategoryStats)) : Nat :=
  (categories.map fun kv => kv.2.totalSize).sum

/-- Whether a request failed in the sense the handlers test for: the `fetch`
promise rejected, or the response status is outside 200-299. -/
def FetchResult.failed : FetchResult → Bool
  | FetchResult.rejected _ => true
  | FetchResult.response status _ => !statusOk status

/-! ## Facts about formatSize -/

theorem floorLog1024Aux_spec (fuel : Nat) :
    ∀ n : Nat, 1 ≤ n → n ≤ fuel →
      1024 ^ floorLog1024Aux fuel n ≤ n ∧ n < 1024 ^ (floorLog1024Aux fuel n + 1) := by
  induction fuel with
  | zero => intro n h1 h2; omega
  | succ fuel ih =>
    intro n h1 h2
    unfold floorLog1024Aux
    by_cases hn : n < 1024
    · simp [hn]; omega
    · simp only [hn, if_false]
      have hq1 : 1 ≤ n / 1024 := by omega
      have hq2 : n / 1024 ≤ fuel := by omega
      obtain ⟨hlo, hhi⟩ := ih (n / 1024) hq1 hq2
      constructor
      · rw [pow_succ]
        calc 1024 ^ floorLog1024Aux fuel (n / 1024) * 1024 ≤ n / 1024 * 1024 :=
              Nat.mul_le_mul_right _ hlo
          _ ≤ n := Nat.div_mul_le_self n 1024
      · rw [pow_succ]
        have : n / 1024 + 1 ≤ 1024 ^ (floorLog1024Aux fuel (n / 1024) + 1) := hhi
        have h3 : (n / 1024 + 1) * 1024 ≤ 1024 ^ (floorLog1024Aux fuel (n / 1024) + 1) * 1024 :=
          Nat.mul_le_mul_right _ this
        omega

/-- On a positive count `floorLog1024` brackets it between consecutive powers
of 1024. -/
theorem floorLog1024_spec (n : Nat) (h : 1 ≤ n) :
    1024 ^ floorLog1024 n ≤ n ∧ n < 1024 ^ (floorLog1024 n + 1) :=
  floorLog1024Aux_spec n n h (le_refl n)

/-- Any exponent whose power of 1024 fits below `n` is at most `floorLog1024 n`. -/
theorem floorLog1024_greatest (n j : Nat) (h : 1 ≤ n) (hj : 1024 ^ j ≤ n) :
    j ≤ floorLog1024 n := by
  by_contra hlt
  have hlt2 : floorLog1024 n + 1 ≤ j := by omega
  have h1 : 1024 ^ (floorLog1024 n + 1) ≤ 1024 ^ j :=
    Nat.pow_le_pow_right (by norm_num) hlt2
  have h2 := (floorLog1024_spec n h).2
  omega

/-- The value `mathRound p q` is the integer nearest to `p / q`, halves up. -/
theorem mathRound_spec (p q : Nat) (hq : 0 < q) :
    2 * mathRound p q * q ≤ 2 * p + q ∧ 2 * p + q < 2 * (mathRound p q + 1) * q := by
  unfold mathRound
  have h2q : 0 < 2 * q := by omega
  constructor
  · calc 2 * ((2 * p + q) / (2 * q)) * q = (2 * p + q) / (2 * q) * (2 * q) := by ring
      _ ≤ 2 * p + q := Nat.div_mul_le_self _ _
  · have := Nat.lt_div_mul_add (a := 2 * p + q) h2q
    calc 2 * p + q < (2 * p + q) / (2 * q) * (2 * q) + 2 * q := this
      _ = 2 * ((2 * p + q) / (2 * q) + 1) * q := by ring

/-! ## C9 and C10: formatSize -/

/-- C9 (the code at the failing input): a total size of 2 TiB (`2 ^ 41` bytes)
fits the data model's `uint64`, yet `formatSize` computes the index 4, which is
outside the four-element `sizes` array, and returns the text `2 undefined`,
which ends in none of the unit labels. -/
theorem formatSize_two_tebibytes :
    (2 : Nat) ^ 41 < 2 ^ 64 ∧ floorLog1024 (2 ^ 41) = 4 ∧ sizes.length = 4 ∧
      sizes.get? (floorLog1024 (2 ^ 41)) = none ∧
      formatSize (2 ^ 41) = "2 undefined" ∧
      ∀ u ∈ ["Byte", "Bytes", "KB", "MB", "GB"], ¬ (u.data <:+ (formatSize (2 ^ 41)).data) := by
  decide

/-- C10: `formatSize 0` is `0 Byte`; for `1 ≤ b < 1024 ^ 4` the result is
`n ++ " " ++ sizes[i]` where `i` is the greatest exponent with `1024 ^ i ≤ b`
and `n` is `b / 1024 ^ i` rounded to the nearest integer, halves up, so
`1 ≤ n ≤ 1024`; and 12000, 10000 and 2000 bytes are shown as `12 KB`, `10 KB`
and `2 KB`. -/
theorem formatSize_nearest_integer (b : Nat) (h1 : 1 ≤ b) (h2 : b < 1024 ^ 4) :
    formatSize 0 = "0 Byte" ∧
    (∃ i n : Nat, ∃ u : String,
      (1024 ^ i ≤ b ∧ ∀ j : Nat, 1024 ^ j ≤ b → j ≤ i) ∧
      sizes.get? i = some u ∧
      ((n : ℚ) - 1 / 2 ≤ (b : ℚ) / (1024 : ℚ) ^ i ∧ (b : ℚ) / (1024 : ℚ) ^ i < (n : ℚ) + 1 / 2) ∧
      1 ≤ n ∧ n ≤ 1024 ∧
      formatSize b = toString n ++ " " ++ u) ∧
    formatSize 12000 = "12 KB" ∧ formatSize 10000 = "10 KB" ∧ formatSize 2000 = "2 KB" := by
  refine ⟨by decide, ?_, by decide, by decide, by decide⟩
  obtain ⟨hlo, hhi⟩ := floorLog1024_spec b h1
  have hpos : 0 < 1024 ^ floorLog1024 b := by positivity
  obtain ⟨hr1, hr2⟩ := mathRound_spec b (1024 ^ floorLog1024 b) hpos
  have hi : floorLog1024 b < 4 := by
    by_contra hge
    have : 1024 ^ 4 ≤ 1024 ^ floorLog1024 b :=
      Nat.pow_le_pow_right (by norm_num) (by omega)
    omega
  have hu : ∃ u, sizes.get? (floorLog1024 b) = some u := by
    have : floorLog1024 b = 0 ∨ floorLog1024 b = 1 ∨ floorLog1024 b = 2 ∨ floorLog1024 b = 3 := by
      omega
    rcases this with h | h | h | h <;> rw [h] <;> simp [sizes]
  obtain ⟨u, hu⟩ := hu
  refine ⟨floorLog1024 b, mathRound b (1024 ^ floorLog1024 b), u, ?_, hu, ?_, ?_, ?_, ?_⟩
  · exact ⟨hlo, fun j hj => floorLog1024_greatest b j h1 hj⟩
  · have hqpos : (0 : ℚ) < (1024 : ℚ) ^ floorLog1024 b := by positivity
    have c1 : ((2 * mathRound b (1024 ^ floorLog1024 b) * 1024 ^ floorLog1024 b : Nat) : ℚ)
        ≤ ((2 * b + 1024 ^ floorLog1024 b : Nat) : ℚ) := by exact_mod_cast hr1
    have c2 : ((2 * b + 1024 ^ floorLog1024 b : Nat) : ℚ)
        < ((2 * (mathRound b (1024 ^ floorLog1024 b) + 1) * 1024 ^ floorLog1024 b : Nat) : ℚ) := by
      exact_mod_cast hr2
    push_cast at c1 c2
    constructor
    · rw [le_div_iff₀ hqpos]; linarith
    · rw [div_lt_iff₀ hqpos]; linarith
  · by_contra hn
    have hz : mathRound b (1024 ^ floorLog1024 b) = 0 := by omega
    rw [hz] at hr2
    omega
  · by_contra hn
    have hge : 1025 ≤ mathRound b (1024 ^ floorLog1024 b) := by omega
    have h3 : 2 * 1025 * 1024 ^ floorLog1024 b
        ≤ 2 * mathRound b (1024 ^ floorLog1024 b) * 1024 ^ floorLog1024 b :=
      Nat.mul_le_mul_right _ (by omega)
    rw [pow_succ] at hhi
    omega
  · have hb : b ≠ 0 := by omega
    simp only [formatSize, hb, if_false, sizesAt, hu]

/-- Witness for `formatSize_nearest_integer` at 1536 bytes. -/
theorem formatSize_nearest_integer_witness :
    (1 ≤ 1536 ∧ 1536 < 1024 ^ 4) ∧
    (formatSize 0 = "0 Byte" ∧
    (∃ i n : Nat, ∃ u : String,
      (1024 ^ i ≤ 1536 ∧ ∀ j : Nat, 1024 ^ j ≤ 1536 → j ≤ i) ∧
      sizes.get? i = some u ∧
      ((n : ℚ) - 1 / 2 ≤ ((1536 : Nat) : ℚ) / (1024 : ℚ) ^ i ∧
        ((1536 : Nat) : ℚ) / (1024 : ℚ) ^ i < (n : ℚ) + 1 / 2) ∧
      1 ≤ n ∧ n ≤ 1024 ∧
      formatSize 1536 = toString n ++ " " ++ u) ∧
    formatSize 12000 = "12 KB" ∧ formatSize 10000 = "10 KB" ∧ formatSize 2000 = "2 KB") :=
  ⟨by decide, formatSize_nearest_integer 1536 (by decide) (by decide)⟩

/-! ## FileSorter: handleSort and renderStatistics -/

/-- A property kept by every step is kept by every run. -/
theorem fileSorterRun_preserves (guarded : Bool) (P : FileSorterSys → Prop)
    (hstep : ∀ sys e sys', P sys → fileSorterStep guarded sys e = some sys' → P sys') :
    ∀ (es : List FileSorterEvent) (sys sys' : FileSorterSys),
      P sys → fileSorterRun guarded sys es = some sys' → P sys' := by
  intro es
  induction es with
  | nil =>
    intro sys sys' hP hrun
    simp only [fileSorterRun, Option.some.injEq] at hrun
    exact hrun ▸ hP
  | cons e es ih =>
    intro sys sys' hP hrun
    simp only [fileSorterRun] at hrun
    cases hs : fileSorterStep guarded sys e with
    | none => simp [hs] at hrun
    | some mid =>
      rw [hs] at hrun
      exact ih mid sys' (hstep sys e mid hP hs) hrun

/-- Reading a property of a value that is neither `null` nor `undefined` does
not throw and agrees with optional chaining. -/
theorem getField_of_not_nullish (v : JVal) (key : String) (h : v.isNullish = false) :
    getField v key = Except.ok (getFieldOpt v key) := by
  cases v <;> simp_all [getField, getFieldOpt, JVal.isNullish]

/-- On entries without a `null` value every entry becomes one card, in order. -/
theorem cardElements_of_not_nullish (cats : List (String × JVal))
    (h : ∀ kv ∈ cats, kv.2.isNullish = false) :
    cardElements cats = Except.ok (cats.map fun kv =>
      { category := kv.1, count := getFieldOpt kv.2 "count",
        size := formatSizeOf (getFieldOpt kv.2 "total_size") }) := by
  induction cats with
  | nil => rfl
  | cons kv rest ih =>
    obtain ⟨k, v⟩ := kv
    have hv : v.isNullish = false := h (k, v) (List.mem_cons_self _ _)
    have hrest := ih (fun kv hkv => h kv (List.mem_cons_of_mem _ hkv))
    simp only [cardElements, getField_of_not_nullish v _ hv, hrest, List.map_cons]

/-- The function returns `null` exactly when `statistics` is absent or falsy. -/
theorem statisticsElements_eq_none_iff (d : JVal) :
    statisticsElements d = Except.ok none ↔ (getFieldOpt d "statistics").truthy = false := by
  constructor
  · intro h
    by_contra ht
    have ht' : (getFieldOpt d "statistics").truthy = true := by simpa using ht
    simp only [statisticsElements, ht', if_true] at h
    split at h
    · exact absurd h (by simp)
    · split at h
      · exact absurd h (by simp)
      · split at h
        · exact absurd h (by simp)
        · split at h
          · exact absurd h (by simp)
          · split at h
            · exact absurd h (by simp)
            · exact absurd h (by simp)
  · intro h
    simp [statisticsElements, h]

/-- React's rendering shows nothing exactly when the function returned `null`. -/
theorem renderStatistics_eq_none_iff (d : JVal) :
    renderStatistics d = Except.ok none ↔ statisticsElements d = Except.ok none := by
  unfold renderStatistics
  constructor
  · intro h
    split at h
    · exact absurd h (by simp)
    · assumption
    · split at h
      · exact absurd h (by simp)
      · exact absurd h (by simp)
  · intro h
    rw [h]

/-- A value in range is an object member: the value it was read from is
neither `null` nor `undefined`. -/
theorem not_nullish_of_sizeInRange (v : JVal) (key : String)
    (h : sizeInRange (getFieldOpt v key) = true) : v.isNullish = false := by
  cases v <;> simp_all [getFieldOpt, sizeInRange, JVal.isNullish]

/-- A value in range is a natural number below `1024 ^ 4`, and `formatSize`
applies to it. -/
theorem formatSizeOf_of_sizeInRange (v : JVal) (h : sizeInRange v = true) :
    ∃ n : Nat, v = JVal.num n ∧ n < 1024 ^ 4 ∧ formatSizeOf v = some (formatSize n) := by
  cases v with
  | num k =>
    simp only [sizeInRange, Bool.and_eq_true, decide_eq_true_eq] at h
    obtain ⟨h0, h1⟩ := h
    refine ⟨k.toNat, ?_, ?_, ?_⟩
    · rw [Int.toNat_of_nonneg h0]
    · omega
    · have hneg : ¬ k < 0 := by omega
      simp only [formatSizeOf, hneg, if_false, h1, if_true]
  | undefined => simp [sizeInRange] at h
  | null => simp [sizeInRange] at h
  | bool b => simp [sizeInRange] at h
  | str t => simp [sizeInRange] at h
  | arr items => simp [sizeInRange] at h
  | obj fields => simp [sizeInRange] at h

/-- The render-time error path: with a plain object as `total_files`, or as a
category's `count`, the function returns its elements and React throws. -/
theorem renderStatistics_object_child :
    renderStatistics (JVal.obj [("statistics", JVal.obj [
        ("total_files", JVal.obj [("x", JVal.num 1)]), ("total_size", JVal.num 0),
        ("categories", JVal.obj [])])])
      = Except.error invalidChildMessage ∧
    renderStatistics (JVal.obj [("statistics", JVal.obj [
        ("total_files", JVal.num 1), ("total_size", JVal.num 0),
        ("categories", JVal.obj [("images",
          JVal.obj [("count", JVal.obj []), ("total_size", JVal.num 0)])])])])
      = Except.error invalidChildMessage := by
  constructor <;> rfl

/-- C1: after `handleSort` on a non-2xx response whose body is an object, the
error is the body's `message` when that is a non-empty string and
`Failed to sort files` when it is missing or empty; `result` is `null`, so
`renderStatistics` returns `null`, and `isLoading` is false. -/
theorem handleSort_failure_response (s : FileSorterState) (status : Nat)
    (fields : List (String × JVal)) (hst : statusOk status = false) :
    (∀ m : String, lookupField "message" fields = JVal.str m → m ≠ "" →
      (handleSort s (FetchResult.response status (Except.ok (JVal.obj fields)))).error
        = some m) ∧
    (lookupField "message" fields = JVal.undefined ∨ lookupField "message" fields = JVal.str "" →
      (handleSort s (FetchResult.response status (Except.ok (JVal.obj fields)))).error
        = some "Failed to sort files") ∧
    (handleSort s (FetchResult.response status (Except.ok (JVal.obj fields)))).result
      = JVal.null ∧
    renderStatistics
      (handleSort s (FetchResult.response status (Except.ok (JVal.obj fields)))).result
      = Except.ok none ∧
    (handleSort s (FetchResult.response status (Except.ok (JVal.obj fields)))).isLoading
      = false := by
  refine ⟨?_, ?_, ?_, ?_, ?_⟩
  · intro m hm hne
    simp [handleSort, handleSortStart, handleSortSettle, sortOutcome, hst, getField, hm,
      JVal.truthy, hne, jsToString]
  · intro hm
    rcases hm with hm | hm <;>
      simp [handleSort, handleSortStart, handleSortSettle, sortOutcome, hst, getField, hm,
        JVal.truthy]
  · simp [handleSort, handleSortStart, handleSortSettle, sortOutcome, hst, getField]
  · simp [handleSort, handleSortStart, handleSortSettle, sortOutcome, hst, getField,
      renderStatistics, statisticsElements, getFieldOpt, JVal.truthy]
  · simp [handleSort, handleSortStart, handleSortSettle, sortOutcome, hst, getField]

/-- Witness for `handleSort_failure_response`: a 404 with a message. -/
theorem handleSort_failure_response_witness :
    statusOk 404 = false ∧
    (handleSort FileSorterState.initial (FetchResult.response 404
      (Except.ok (JVal.obj [("message", JVal.str "Source directory does not exist")])))).error
      = some "Source directory does not exist" :=
  ⟨by decide,
   (handleSort_failure_response FileSorterState.initial 404
      [("message", JVal.str "Source directory does not exist")] (by decide)).1
      "Source directory does not exist" (by simp [lookupField]) (by decide)⟩

/-- C2 (counterexample): a 200 response whose `statistics` object has no
`categories` member. `handleSort` stores it, `statistics` is present, and
`renderStatistics` neither returns `null` nor shows anything:
`Object.entries(undefined)` throws. -/
theorem renderStatistics_throws_without_categories :
    statusOk 200 = true ∧
    (handleSort FileSorterState.initial (FetchResult.response 200 (Except.ok
      (JVal.obj [("statistics",
        JVal.obj [("total_files", JVal.num 0), ("total_size", JVal.num 0)])])))).result
      = JVal.obj [("statistics",
          JVal.obj [("total_files", JVal.num 0), ("total_size", JVal.num 0)])] ∧
    getFieldOpt (JVal.obj [("statistics",
        JVal.obj [("total_files", JVal.num 0), ("total_size", JVal.num 0)])]) "statistics"
      = JVal.obj [("total_files", JVal.num 0), ("total_size", JVal.num 0)] ∧
    renderStatistics (JVal.obj [("statistics",
        JVal.obj [("total_files", JVal.num 0), ("total_size", JVal.num 0)])])
      = Except.error "Cannot convert undefined or null to object" ∧
    ¬ ∃ view : Option StatisticsView,
        renderStatistics (handleSort FileSorterState.initial (FetchResult.response 200
          (Except.ok (JVal.obj [("statistics",
            JVal.obj [("total_files", JVal.num 0), ("total_size", JVal.num 0)])])))).result
          = Except.ok view := by
  refine ⟨by decide, rfl, by simp [getFieldOpt, lookupField], ?_, ?_⟩
  · simp [renderStatistics, statisticsElements, getFieldOpt, lookupField, JVal.truthy, getField,
      objectEntries]
  · simp [handleSort, handleSortStart, handleSortSettle, sortOutcome, statusOk,
      renderStatistics, statisticsElements, getFieldOpt, lookupField, JVal.truthy, getField,
      objectEntries]

/-- C2 (amended): after `handleSort` on a 2xx response with body `d`,
`result = d`, `error = null` and `isLoading = false`; `renderStatistics`
returns `null` exactly when `d.statistics` is absent or falsy; and when
`d.statistics` is an object whose `total_files` is not a plain object (nor an
array holding one), whose `total_size` is an integer with
`0 ≤ total_size < 1024 ^ 4`, and whose `categories` is an object each of whose
members has a `count` that is not a plain object and a `total_size` that is
such an integer, the component shows `total_files` unchanged,
`formatSize(total_size)`, and one card per entry of `categories`, in
`Object.entries` order, each with that entry's `count` and
`formatSize(total_size)`, `formatSize` being computed in exact arithmetic. -/
theorem handleSort_success_response (s : FileSorterState) (status : Nat) (d : JVal)
    (hst : statusOk status = true) :
    (handleSort s (FetchResult.response status (Except.ok d))).result = d ∧
    (handleSort s (FetchResult.response status (Except.ok d))).error = none ∧
    (handleSort s (FetchResult.response status (Except.ok d))).isLoading = false ∧
    (renderStatistics (handleSort s (FetchResult.response status (Except.ok d))).result
        = Except.ok none ↔ (getFieldOpt d "statistics").truthy = false) ∧
    (∀ stats cats : List (String × JVal),
      getFieldOpt d "statistics" = JVal.obj stats →
      lookupField "categories" stats = JVal.obj cats →
      validReactChild (lookupField "total_files" stats) = true →
      sizeInRange (lookupField "total_size" stats) = true →
      (∀ kv ∈ cats, validReactChild (getFieldOpt kv.2 "count") = true ∧
        sizeInRange (getFieldOpt kv.2 "total_size") = true) →
      renderStatistics (handleSort s (FetchResult.response status (Except.ok d))).result
        = Except.ok (some
            { totalFiles := lookupField "total_files" stats
              totalSize := formatSizeOf (lookupField "total_size" stats)
              cards := cats.map fun kv =>
                { category := kv.1, count := getFieldOpt kv.2 "count",
                  size := formatSizeOf (getFieldOpt kv.2 "total_size") } })) ∧
    (∀ v : JVal, sizeInRange v = true →
      ∃ n : Nat, v = JVal.num n ∧ n < 1024 ^ 4 ∧ formatSizeOf v = some (formatSize n)) := by
  have hres : (handleSort s (FetchResult.response status (Except.ok d))).result = d := by
    simp [handleSort, handleSortStart, handleSortSettle, sortOutcome, hst]
  refine ⟨hres, ?_, ?_, ?_, ?_, formatSizeOf_of_sizeInRange⟩
  · simp [handleSort, handleSortStart, handleSortSettle, sortOutcome, hst]
  · simp [handleSort, handleSortStart, handleSortSettle, sortOutcome, hst]
  · rw [hres]
    exact (renderStatistics_eq_none_iff d).trans (statisticsElements_eq_none_iff d)
  · intro stats cats hstats hcats hfiles _ hcards
    rw [hres]
    have hvals : ∀ kv ∈ cats, kv.2.isNullish = false := fun kv hkv =>
      not_nullish_of_sizeInRange kv.2 "total_size" (hcards kv hkv).2
    have helems : statisticsElements d = Except.ok (some
        { totalFiles := lookupField "total_files" stats
          totalSize := formatSizeOf (lookupField "total_size" stats)
          cards := cats.map fun kv =>
            { category := kv.1, count := getFieldOpt kv.2 "count",
              size := formatSizeOf (getFieldOpt kv.2 "total_size") } }) := by
      simp only [statisticsElements, hstats, JVal.truthy, if_true, getField, hcats, objectEntries,
        cardElements_of_not_nullish cats hvals]
    have hall : (cats.map fun kv =>
        ({ category := kv.1, count := getFieldOpt kv.2 "count",
           size := formatSizeOf (getFieldOpt kv.2 "total_size") } : CategoryCard)).all
          (fun card => validReactChild card.count) = true := by
      rw [List.all_eq_true]
      intro card hcard
      obtain ⟨kv, hkv, rfl⟩ := List.mem_map.mp hcard
      exact (hcards kv hkv).1
    simp only [renderStatistics, helems, hfiles, hall, Bool.and_self, if_true]

/-- Witness for `handleSort_success_response`: the spec's scenario body. -/
theorem handleSort_success_response_witness :
    statusOk 200 = true ∧
    renderStatistics (handleSort FileSorterState.initial (FetchResult.response 200 (Except.ok
      (JVal.obj [("statistics", JVal.obj [("total_files", JVal.num 2),
        ("total_size", JVal.num 12000),
        ("categories", JVal.obj [
          ("images", JVal.obj [("count", JVal.num 1), ("total_size", JVal.num 10000)]),
          ("documents", JVal.obj [("count", JVal.num 1), ("total_size", JVal.num 2000)])])])])))).result
      = Except.ok (some
          { totalFiles := JVal.num 2
            totalSize := some "12 KB"
            cards := [ { category := "images", count := JVal.num 1, size := some "10 KB" },
                       { category := "documents", count := JVal.num 1, size := some "2 KB" } ] }) :=
  ⟨by decide,
   ((handleSort_success_response FileSorterState.initial 200
      (JVal.obj [("statistics", JVal.obj [("total_files", JVal.num 2),
        ("total_size", JVal.num 12000),
        ("categories", JVal.obj [
          ("images", JVal.obj [("count", JVal.num 1), ("total_size", JVal.num 10000)]),
          ("documents", JVal.obj [("count", JVal.num 1), ("total_size", JVal.num 2000)])])])])
      (by decide)).2.2.2.2.1
      [("total_files", JVal.num 2), ("total_size", JVal.num 12000),
        ("categories", JVal.obj [
          ("images", JVal.obj [("count", JVal.num 1), ("total_size", JVal.num 10000)]),
          ("documents", JVal.obj [("count", JVal.num 1), ("total_size", JVal.num 2000)])])]
      [("images", JVal.obj [("count", JVal.num 1), ("total_size", JVal.num 10000)]),
       ("documents", JVal.obj [("count", JVal.num 1), ("total_size", JVal.num 2000)])]
      rfl rfl rfl (by decide)
      (by
        intro kv hkv
        simp only [List.mem_cons, List.mem_singleton, List.not_mem_nil, or_false] at hkv
        rcases hkv with h | h <;> subst h <;> exact ⟨rfl, by decide⟩)).trans rfl⟩

/-- The shape of a request body of `/api/sort-files` with a criteria value
from `sortingCriteria`. -/
theorem sortRequestBody_shape (s : FileSorterState)
    (h : s.criteria ∈ ["type", "date", "size", "name"]) :
    ∃ (sd dd c : String) (r : Bool),
      sortRequestBody s = JVal.obj [("source_dir", JVal.str sd), ("dest_dir", JVal.str dd),
        ("criteria", JVal.str c), ("recursive", JVal.bool r)] ∧
      c ∈ ["type", "date", "size", "name"] :=
  ⟨s.sourceDir, s.destDir, s.criteria, s.recursive, rfl, h⟩

/-- C3: in every state reachable from the initial one through the setters,
criteria clicks, `handleSort` calls (accepted at any time) and request
completions, `criteria` is one of `type`, `date`, `size`, `name`; the body
`handleSort` sends from that state is `{source_dir, dest_dir, criteria,
recursive}` with the current field values, and every body already sent has
that shape with a criteria value in the four-element set. -/
theorem fileSorter_criteria_invariant (es : List FileSorterEvent) (sys : FileSorterSys)
    (h : fileSorterRun false FileSorterSys.initial es = some sys) :
    sys.ui.criteria ∈ ["type", "date", "size", "name"] ∧
    (handleSortStart sys.ui).2 =
      JVal.obj [("source_dir", JVal.str sys.ui.sourceDir), ("dest_dir", JVal.str sys.ui.destDir),
        ("criteria", JVal.str sys.ui.criteria), ("recursive", JVal.bool sys.ui.recursive)] ∧
    ∀ body ∈ sys.pending, ∃ (sd dd c : String) (r : Bool),
      body = JVal.obj [("source_dir", JVal.str sd), ("dest_dir", JVal.str dd),
        ("criteria", JVal.str c), ("recursive", JVal.bool r)] ∧
      c ∈ ["type", "date", "size", "name"] := by
  have key := fileSorterRun_preserves false
    (fun sys => sys.ui.criteria ∈ ["type", "date", "size", "name"] ∧
      ∀ body ∈ sys.pending, ∃ (sd dd c : String) (r : Bool),
        body = JVal.obj [("source_dir", JVal.str sd), ("dest_dir", JVal.str dd),
          ("criteria", JVal.str c), ("recursive", JVal.bool r)] ∧
        c ∈ ["type", "date", "size", "name"])
    (by
      intro sys e sys' hP hs
      obtain ⟨hc, hp⟩ := hP
      cases e with
      | setSourceDir v =>
        simp only [fileSorterStep, Option.some.injEq] at hs
        subst hs; exact ⟨hc, hp⟩
      | setDestDir v =>
        simp only [fileSorterStep, Option.some.injEq] at hs
        subst hs; exact ⟨hc, hp⟩
      | clickCriteria k =>
        simp only [fileSorterStep] at hs
        have hk : k = 0 ∨ k = 1 ∨ k = 2 ∨ k = 3 ∨ 4 ≤ k := by omega
        rcases hk with hk | hk | hk | hk | hk
        · subst hk; simp [sortingCriteria] at hs; subst hs; exact ⟨by simp, hp⟩
        · subst hk; simp [sortingCriteria] at hs; subst hs; exact ⟨by simp, hp⟩
        · subst hk; simp [sortingCriteria] at hs; subst hs; exact ⟨by simp, hp⟩
        · subst hk; simp [sortingCriteria] at hs; subst hs; exact ⟨by simp, hp⟩
        · have hnone : sortingCriteria.get? k = none :=
            List.get?_eq_none.mpr (by simpa [sortingCriteria] using hk)
          rw [hnone] at hs
          exact absurd hs (by simp)
      | setRecursive b =>
        simp only [fileSorterStep, Option.some.injEq] at hs
        subst hs; exact ⟨hc, hp⟩
      | submit =>
        simp only [fileSorterStep, Bool.false_and, Bool.false_eq_true, if_false,
          Option.some.injEq] at hs
        subst hs
        refine ⟨hc, ?_⟩
        intro body hb
        rcases List.mem_append.mp hb with hb | hb
        · exact hp body hb
        · rw [List.mem_singleton] at hb
          subst hb
          exact sortRequestBody_shape sys.ui hc
      | settle k r =>
        simp only [fileSorterStep] at hs
        cases hg : sys.pending.get? k with
        | none => rw [hg] at hs; exact absurd hs (by simp)
        | some b =>
          rw [hg] at hs
          simp only [Option.some.injEq] at hs
          subst hs
          refine ⟨?_, fun body hb => hp body (List.mem_of_mem_eraseIdx hb)⟩
          show (handleSortSettle sys.ui r).criteria ∈ _
          unfold handleSortSettle
          split <;> exact hc)
    es FileSorterSys.initial sys ⟨by simp [FileSorterSys.initial, FileSorterState.initial], by
      simp [FileSorterSys.initial]⟩ h
  exact ⟨key.1, rfl, key.2⟩

/-- Witness for `fileSorter_criteria_invariant`: pick `date`, fill both
directories, submit. -/
theorem fileSorter_criteria_invariant_witness :
    fileSorterRun false FileSorterSys.initial
      [FileSorterEvent.clickCriteria 1, FileSorterEvent.setSourceDir "/in",
       FileSorterEvent.setDestDir "/out", FileSorterEvent.submit]
      = some { ui := { sourceDir := "/in", destDir := "/out", criteria := "date",
                       recursive := true, isLoading := true, result := JVal.null,
                       error := none },
               pending := [JVal.obj [("source_dir", JVal.str "/in"),
                 ("dest_dir", JVal.str "/out"), ("criteria", JVal.str "date"),
                 ("recursive", JVal.bool true)]] } ∧
    "date" ∈ ["type", "date", "size", "name"] :=
  ⟨rfl,
   (fileSorter_criteria_invariant
      [FileSorterEvent.clickCriteria 1, FileSorterEvent.setSourceDir "/in",
       FileSorterEvent.setDestDir "/out", FileSorterEvent.submit]
      { ui := { sourceDir := "/in", destDir := "/out", criteria := "date",
                recursive := true, isLoading := true, result := JVal.null,
                error := none },
        pending := [JVal.obj [("source_dir", JVal.str "/in"),
          ("dest_dir", JVal.str "/out"), ("criteria", JVal.str "date"),
          ("recursive", JVal.bool true)]] } rfl).1⟩

/-- C7: with a form submit accepted only while the submit button is enabled,
in every reachable state of FileSorter at most one `/api/sort-files` request is
pending, `isLoading` is true exactly when one is pending, and `result` and
`error` are never both non-null. -/
theorem fileSorter_single_in_flight (es : List FileSorterEvent) (sys : FileSorterSys)
    (h : fileSorterRun true FileSorterSys.initial es = some sys) :
    sys.pending.length ≤ 1 ∧
    (sys.ui.isLoading = true ↔ sys.pending ≠ []) ∧
    ¬ (sys.ui.result ≠ JVal.null ∧ sys.ui.error ≠ none) := by
  have key := fileSorterRun_preserves true
    (fun sys => sys.pending.length ≤ 1 ∧ (sys.ui.isLoading = true ↔ sys.pending ≠ []) ∧
      (sys.ui.isLoading = true → sys.ui.result = JVal.null ∧ sys.ui.error = none) ∧
      (sys.ui.result = JVal.null ∨ sys.ui.error = none))
    (by
      intro sys e sys' hP hs
      obtain ⟨hlen, hiff, hload, hex⟩ := hP
      cases e with
      | setSourceDir v =>
        simp only [fileSorterStep, Option.some.injEq] at hs
        subst hs; exact ⟨hlen, hiff, hload, hex⟩
      | setDestDir v =>
        simp only [fileSorterStep, Option.some.injEq] at hs
        subst hs; exact ⟨hlen, hiff, hload, hex⟩
      | clickCriteria k =>
        simp only [fileSorterStep] at hs
        cases hg : sortingCriteria.get? k with
        | none => rw [hg] at hs; exact absurd hs (by simp)
        | some o =>
          rw [hg] at hs
          simp only [Option.some.injEq] at hs
          subst hs; exact ⟨hlen, hiff, hload, hex⟩
      | setRecursive b =>
        simp only [fileSorterStep, Option.some.injEq] at hs
        subst hs; exact ⟨hlen, hiff, hload, hex⟩
      | submit =>
        simp only [fileSorterStep, Bool.true_and] at hs
        by_cases hl : sys.ui.isLoading = true
        · simp [hl] at hs
        · have hl' : sys.ui.isLoading = false := by simpa using hl
          simp only [hl', Bool.false_eq_true, if_false, Option.some.injEq] at hs
          have hnil : sys.pending = [] := by
            by_contra hne
            exact hl (hiff.mpr hne)
          subst hs
          simp [hnil, handleSortStart]
      | settle k r =>
        simp only [fileSorterStep] at hs
        cases hg : sys.pending.get? k with
        | none => rw [hg] at hs; exact absurd hs (by simp)
        | some b =>
          rw [hg] at hs
          simp only [Option.some.injEq] at hs
          have hne : sys.pending ≠ [] := by
            intro hnil
            rw [hnil] at hg
            simp at hg
          obtain ⟨hr, he⟩ := hload (hiff.mpr hne)
          have herase : sys.pending.eraseIdx k = [] := by
            apply List.eq_nil_of_length_eq_zero
            have hk : k < sys.pending.length := by
              by_contra hk
              rw [List.get?_eq_none.mpr (by omega)] at hg
              exact absurd hg (by simp)
            rw [List.length_eraseIdx]
            simp only [hk, if_true]
            omega
          subst hs
          simp only [herase]
          unfold handleSortSettle
          split <;> simp [he, hr])
    es FileSorterSys.initial sys
    (by simp [FileSorterSys.initial, FileSorterState.initial]) h
  obtain ⟨hlen, hiff, _, hex⟩ := key
  refine ⟨hlen, hiff, ?_⟩
  rintro ⟨h1, h2⟩
  rcases hex with h | h
  · exact h1 h
  · exact h2 h

/-- Witness for `fileSorter_single_in_flight`: a submit followed by the
arrival of a failure response. -/
theorem fileSorter_single_in_flight_witness :
    fileSorterRun true FileSorterSys.initial
      [FileSorterEvent.submit,
       FileSorterEvent.settle 0 (FetchResult.response 500 (Except.ok (JVal.obj [])))]
      = some { ui := { sourceDir := "", destDir := "", criteria := "type", recursive := true,
                       isLoading := false, result := JVal.null,
                       error := some "Failed to sort files" },
               pending := [] } ∧
    ([] : List JVal).length ≤ 1 :=
  ⟨rfl,
   (fileSorter_single_in_flight
      [FileSorterEvent.submit,
       FileSorterEvent.settle 0 (FetchResult.response 500 (Except.ok (JVal.obj [])))]
      { ui := { sourceDir := "", destDir := "", criteria := "type", recursive := true,
                isLoading := false, result := JVal.null,
                error := some "Failed to sort files" },
        pending := [] } rfl).1⟩

/-! ## AIAgentChat: handleSubmit, handleReset and the in-flight flag -/

/-- C4: for non-blank input and a 2xx response whose body is an object with
`response` member `r`, an uninterrupted `handleSubmit` sends `{query: input}`
with the input as typed, and ends with the previous messages followed by the
user message and then the `ai` reply with content `r`, `input` empty,
`isLoading` false and `error` null. -/
theorem handleSubmit_success (s : ChatState) (sentAt repliedAt : String) (status : Nat)
    (fields : List (String × JVal)) (r : JVal)
    (hin : jsTrim s.input ≠ "") (hst : statusOk status = true)
    (hr : lookupField "response" fields = r) :
    handleSubmit s sentAt (FetchResult.response status (Except.ok (JVal.obj fields))) repliedAt
      = (some (ChatRequest.query (JVal.obj [("query", JVal.str s.input)])),
         { messages := s.messages ++
             [{ type := "user", content := JVal.str s.input, timestamp := sentAt },
              { type := "ai", content := r, timestamp := repliedAt }],
           input := "", isLoading := false, error := none }) := by
  simp [handleSubmit, handleSubmitStart, hin, handleSubmitSettle, replyContent, hst, getField, hr]

/-- Witness for `handleSubmit_success`: the input `  hello ` is sent untrimmed. -/
theorem handleSubmit_success_witness :
    (jsTrim "  hello " ≠ "" ∧ statusOk 200 = true) ∧
    handleSubmit { messages := [], input := "  hello ", isLoading := false, error := none }
        "10:00:00" (FetchResult.response 200 (Except.ok (JVal.obj [("response", JVal.str "Hi!")])))
        "10:00:01"
      = (some (ChatRequest.query (JVal.obj [("query", JVal.str "  hello ")])),
         { messages := [] ++
             [{ type := "user", content := JVal.str "  hello ", timestamp := "10:00:00" },
              { type := "ai", content := JVal.str "Hi!", timestamp := "10:00:01" }],
           input := "", isLoading := false, error := none }) :=
  ⟨⟨by decide, by decide⟩,
   handleSubmit_success
     { messages := [], input := "  hello ", isLoading := false, error := none }
     "10:00:00" "10:00:01" 200 [("response", JVal.str "Hi!")] (JVal.str "Hi!")
     (by decide) (by decide) (by simp [lookupField])⟩

/-- C5 (the code at the failing input): with one message in the transcript, a
reset answered by HTTP 500 (not a 2xx status) still empties `messages` and sets
`error` to null, while a rejected `fetch` leaves `messages` and reports
`Failed to reset conversation`. -/
theorem handleReset_clears_on_http_failure :
    statusOk 500 = false ∧
    handleReset
        { messages := [{ type := "user", content := JVal.str "hi", timestamp := "10:00:00" }],
          input := "", isLoading := false, error := none }
        (FetchResult.response 500 (Except.ok (JVal.obj [("message", JVal.str "Internal error")])))
      = { messages := [], input := "", isLoading := false, error := none } ∧
    handleReset
        { messages := [{ type := "user", content := JVal.str "hi", timestamp := "10:00:00" }],
          input := "", isLoading := false, error := none }
        (FetchResult.rejected "Failed to fetch")
      = { messages := [{ type := "user", content := JVal.str "hi", timestamp := "10:00:00" }],
          input := "", isLoading := false, error := some "Failed to reset conversation" } :=
  ⟨by decide, rfl, rfl⟩

/-- A property kept by every step whose event satisfies `Q` is kept by every
run made of such events. -/
theorem chatRun_preserves (Q : ChatEvent → Prop) (P : ChatSys → Prop)
    (hstep : ∀ sys e sys', Q e → P sys → chatStep sys e = some sys' → P sys') :
    ∀ (es : List ChatEvent) (sys sys' : ChatSys),
      (∀ e ∈ es, Q e) → P sys → chatRun sys es = some sys' → P sys' := by
  intro es
  induction es with
  | nil =>
    intro sys sys' _ hP hrun
    simp only [chatRun, Option.some.injEq] at hrun
    exact hrun ▸ hP
  | cons e es ih =>
    intro sys sys' hQ hP hrun
    simp only [chatRun] at hrun
    cases hs : chatStep sys e with
    | none => simp [hs] at hrun
    | some mid =>
      rw [hs] at hrun
      exact ih mid sys' (fun e' he' => hQ e' (List.mem_cons_of_mem _ he'))
        (hstep sys e mid (hQ e (List.mem_cons_self _ _)) hP hs) hrun

/-- Removing the element at a valid index lowers a count by one exactly when
that element is counted. -/
theorem countP_eraseIdx_add {α : Type} (p : α → Bool) :
    ∀ (l : List α) (k : Nat) (x : α), l.get? k = some x →
      (l.eraseIdx k).countP p + (if p x = true then 1 else 0) = l.countP p := by
  intro l
  induction l with
  | nil => intro k x h; simp at h
  | cons a rest ih =>
    intro k x h
    cases k with
    | zero =>
      simp only [List.get?_cons_zero, Option.some.injEq] at h
      subst h
      simp only [List.eraseIdx_cons_zero, List.countP_cons]
    | succ k =>
      simp only [List.get?_cons_succ] at h
      have := ih k x h
      simp only [List.eraseIdx_cons_succ, List.countP_cons]
      omega

/-- C6 (counterexample): a click on reset leaves a request pending while
`isLoading` is false, and a reset click during a query leaves two requests
pending; so `isLoading` is not a guard over all three kinds of request. -/
theorem chat_reset_escapes_isLoading :
    chatRun ChatSys.initial [ChatEvent.reset]
      = some { ui := { messages := [], input := "", isLoading := false, error := none },
               pending := [ChatRequest.reset] } ∧
    chatRun ChatSys.initial
        [ChatEvent.setInput "hi", ChatEvent.submit "10:00:00", ChatEvent.reset]
      = some { ui := { messages := [{ type := "user", content := JVal.str "hi",
                                      timestamp := "10:00:00" }],
                       input := "", isLoading := true, error := none },
               pending := [ChatRequest.query (JVal.obj [("query", JVal.str "hi")]),
                           ChatRequest.reset] } ∧
    ¬ ∀ (es : List ChatEvent) (sys : ChatSys), chatRun ChatSys.initial es = some sys →
        sys.pending.length ≤ 1 ∧ (sys.ui.isLoading = true ↔ sys.pending ≠ []) := by
  refine ⟨rfl, rfl, ?_⟩
  intro hall
  have h := hall [ChatEvent.setInput "hi", ChatEvent.submit "10:00:00", ChatEvent.reset]
    { ui := { messages := [{ type := "user", content := JVal.str "hi",
                             timestamp := "10:00:00" }],
              input := "", isLoading := true, error := none },
      pending := [ChatRequest.query (JVal.obj [("query", JVal.str "hi")]),
                  ChatRequest.reset] } rfl
  simp at h

/-- C6 (amended): in every reachable state of AIAgentChat, `isLoading` true
implies that a query or sync request is pending; and along runs without a
click on the sync button, at most one `/api/ai-query` request is pending and
`isLoading` is true exactly when one is. Reset requests are not tracked by
`isLoading`. -/
theorem chat_isLoading_guards_queries (es : List ChatEvent) (sys : ChatSys)
    (h : chatRun ChatSys.initial es = some sys) :
    (sys.ui.isLoading = true → ∃ req ∈ sys.pending, req.isReset = false) ∧
    ((∀ e ∈ es, e.isSyncAll = false) →
      sys.pending.countP ChatRequest.isQuery ≤ 1 ∧
      (sys.ui.isLoading = true ↔ ∃ req ∈ sys.pending, req.isQuery = true)) := by
  have q1 : ∀ b, ChatRequest.isQuery (ChatRequest.query b) = true := fun _ => rfl
  have q2 : ChatRequest.isQuery ChatRequest.reset = false := rfl
  have s1 : ∀ b, ChatRequest.isSync (ChatRequest.query b) = false := fun _ => rfl
  have s2 : ChatRequest.isSync ChatRequest.reset = false := rfl
  have s3 : ChatRequest.isSync ChatRequest.syncAll = true := rfl
  have l1 : ∀ b, ChatRequest.setsLoading (ChatRequest.query b) = true := fun _ => rfl
  have l2 : ChatRequest.setsLoading ChatRequest.reset = false := rfl
  have l3 : ChatRequest.setsLoading ChatRequest.syncAll = true := rfl
  constructor
  · have key := chatRun_preserves (fun _ => True)
      (fun sys => sys.ui.isLoading = true → 0 < sys.pending.countP ChatRequest.setsLoading)
      (by
        intro sys e sys' _ hP hs
        cases e with
        | setInput v =>
          simp only [chatStep] at hs
          split at hs
          · exact absurd hs (by simp)
          · simp only [Option.some.injEq] at hs
            subst hs; exact hP
        | submit now =>
          simp only [chatStep] at hs
          split at hs
          · exact absurd hs (by simp)
          · rename_i hg
            have hin : jsTrim sys.ui.input ≠ "" := by
              intro hb; apply hg; simp [hb]
            simp only [handleSubmitStart, hin, if_false, Option.some.injEq] at hs
            subst hs
            intro _
            simp only [List.countP_append, List.countP_cons, List.countP_nil, l1, if_true]
            omega
        | syncAll =>
          simp only [chatStep, Option.some.injEq] at hs
          subst hs
          intro _
          simp only [List.countP_append, List.countP_cons, List.countP_nil, l3, if_true]
          omega
        | reset =>
          simp only [chatStep, Option.some.injEq] at hs
          subst hs
          intro hl
          have := hP hl
          simp only [List.countP_append]
          omega
        | settle k r now =>
          simp only [chatStep] at hs
          split at hs
          · simp only [Option.some.injEq] at hs
            subst hs
            intro hl
            simp only [handleSubmitSettle] at hl
            split at hl <;> simp at hl
          · simp only [Option.some.injEq] at hs
            subst hs
            intro hl
            simp only [handleSyncAllSettle] at hl
            split at hl <;> simp at hl
          · rename_i hg
            simp only [Option.some.injEq] at hs
            subst hs
            intro hl
            have hl' : sys.ui.isLoading = true := by
              simp only [handleResetSettle] at hl
              split at hl <;> simpa using hl
            have hc := countP_eraseIdx_add ChatRequest.setsLoading sys.pending k _ hg
            have := hP hl'
            simp only [l2, Bool.false_eq_true, if_false, Nat.add_zero] at hc
            show 0 < List.countP ChatRequest.setsLoading (sys.pending.eraseIdx k)
            omega
          · exact absurd hs (by simp))
      es ChatSys.initial sys (fun _ _ => trivial)
      (by simp [ChatSys.initial, ChatState.initial]) h
    intro hl
    obtain ⟨req, hmem, hreq⟩ := List.countP_pos_iff.mp (key hl)
    refine ⟨req, hmem, ?_⟩
    cases req with
    | query b => rfl
    | syncAll => rfl
    | reset => exact absurd hreq (by simp [l2])
  · intro hsync
    have key := chatRun_preserves (fun e => e.isSyncAll = false)
      (fun sys => sys.pending.countP ChatRequest.isQuery ≤ 1 ∧
        (sys.ui.isLoading = true ↔ 0 < sys.pending.countP ChatRequest.isQuery) ∧
        sys.pending.countP ChatRequest.isSync = 0)
      (by
        intro sys e sys' hQ hP hs
        obtain ⟨hle, hiff, hno⟩ := hP
        cases e with
        | setInput v =>
          simp only [chatStep] at hs
          split at hs
          · exact absurd hs (by simp)
          · simp only [Option.some.injEq] at hs
            subst hs; exact ⟨hle, hiff, hno⟩
        | submit now =>
          simp only [chatStep] at hs
          split at hs
          · exact absurd hs (by simp)
          · rename_i hg
            have hin : jsTrim sys.ui.input ≠ "" := by
              intro hb; apply hg; simp [hb]
            have hl : sys.ui.isLoading = false := by
              cases hx : sys.ui.isLoading with
              | false => rfl
              | true => exact absurd (by simp [hx]) hg
            have hz : sys.pending.countP ChatRequest.isQuery = 0 := by
              by_contra hne
              have : sys.ui.isLoading = true := hiff.mpr (by omega)
              rw [hl] at this
              exact absurd this (by simp)
            simp only [handleSubmitStart, hin, if_false, Option.some.injEq] at hs
            subst hs
            simp only [List.countP_append, List.countP_cons, List.countP_nil, q1, s1, if_true,
              Bool.false_eq_true, if_false, hz, hno]
            simp
        | syncAll => exact absurd hQ (by simp [ChatEvent.isSyncAll])
        | reset =>
          simp only [chatStep, Option.some.injEq] at hs
          subst hs
          simp only [List.countP_append, List.countP_cons, List.countP_nil, q2, s2,
            Bool.false_eq_true, if_false, Nat.add_zero]
          exact ⟨hle, hiff, hno⟩
        | settle k r now =>
          simp only [chatStep] at hs
          split at hs
          · rename_i body hg
            simp only [Option.some.injEq] at hs
            subst hs
            have hc := countP_eraseIdx_add ChatRequest.isQuery sys.pending k _ hg
            have hc2 := countP_eraseIdx_add ChatRequest.isSync sys.pending k _ hg
            simp only [q1, if_true] at hc
            have hz : List.countP ChatRequest.isQuery (sys.pending.eraseIdx k) = 0 := by omega
            refine ⟨by show List.countP ChatRequest.isQuery (sys.pending.eraseIdx k) ≤ 1; omega,
              ?_, by show List.countP ChatRequest.isSync (sys.pending.eraseIdx k) = 0; omega⟩
            show (handleSubmitSettle sys.ui r now).isLoading = true ↔
              0 < List.countP ChatRequest.isQuery (sys.pending.eraseIdx k)
            rw [hz]
            simp only [handleSubmitSettle]
            split <;> simp
          · rename_i hg
            have hc2 := countP_eraseIdx_add ChatRequest.isSync sys.pending k _ hg
            simp only [s3, if_true] at hc2
            omega
          · rename_i hg
            simp only [Option.some.injEq] at hs
            subst hs
            have hc := countP_eraseIdx_add ChatRequest.isQuery sys.pending k _ hg
            have hc2 := countP_eraseIdx_add ChatRequest.isSync sys.pending k _ hg
            simp only [q2, Bool.false_eq_true, if_false, Nat.add_zero] at hc
            refine ⟨by show List.countP ChatRequest.isQuery (sys.pending.eraseIdx k) ≤ 1; omega,
              ?_, by show List.countP ChatRequest.isSync (sys.pending.eraseIdx k) = 0; omega⟩
            show (handleResetSettle sys.ui r).isLoading = true ↔
              0 < List.countP ChatRequest.isQuery (sys.pending.eraseIdx k)
            rw [hc]
            simp only [handleResetSettle]
            split <;> exact hiff
          · exact absurd hs (by simp))
      es ChatSys.initial sys hsync
      (by simp [ChatSys.initial, ChatState.initial]) h
    refine ⟨key.1, key.2.1.trans ?_⟩
    rw [List.countP_pos_iff]

/-- Witness for `chat_isLoading_guards_queries`: a query is pending while
`isLoading` is true, next to a reset request. -/
theorem chat_isLoading_guards_queries_witness :
    chatRun ChatSys.initial
        [ChatEvent.setInput "hi", ChatEvent.submit "10:00:00", ChatEvent.reset]
      = some { ui := { messages := [{ type := "user", content := JVal.str "hi",
                                      timestamp := "10:00:00" }],
                       input := "", isLoading := true, error := none },
               pending := [ChatRequest.query (JVal.obj [("query", JVal.str "hi")]),
                           ChatRequest.reset] } ∧
    List.countP ChatRequest.isQuery
      [ChatRequest.query (JVal.obj [("query", JVal.str "hi")]), ChatRequest.reset] ≤ 1 :=
  ⟨rfl,
   ((chat_isLoading_guards_queries
      [ChatEvent.setInput "hi", ChatEvent.submit "10:00:00", ChatEvent.reset]
      { ui := { messages := [{ type := "user", content := JVal.str "hi",
                               timestamp := "10:00:00" }],
                input := "", isLoading := true, error := none },
        pending := [ChatRequest.query (JVal.obj [("query", JVal.str "hi")]),
                    ChatRequest.reset] } rfl).2
      (by simp [ChatEvent.isSyncAll])).1⟩

/-! ## The statistics engine -/

/-- Placing one file raises the sum of the counts by one. -/
theorem sumCounts_bumpCategory (category : String) (size : Nat)
    (cats : List (String × CategoryStats)) :
    sumCounts (bumpCategory category size cats) = sumCounts cats + 1 := by
  induction cats with
  | nil => simp [bumpCategory, sumCounts]
  | cons kv rest ih =>
    obtain ⟨c, stats⟩ := kv
    unfold bumpCategory
    by_cases hc : c = category
    · simp only [hc, if_true, sumCounts, List.map_cons, List.sum_cons]
      omega
    · simp only [hc, if_false]
      have : sumCounts ((c, stats) :: bumpCategory category size rest)
          = stats.count + sumCounts (bumpCategory category size rest) := by
        simp [sumCounts]
      rw [this, ih]
      simp [sumCounts]
      omega

/-- Placing one file raises the sum of the sizes by its size as long as the
sum stays below `2 ^ 64`. -/
theorem sumSizes_bumpCategory (category : String) (size : Nat)
    (cats : List (String × CategoryStats)) (hfit : sumSizes cats + size < 2 ^ 64) :
    sumSizes (bumpCategory category size cats) = sumSizes cats + size := by
  induction cats with
  | nil =>
    have hs : size < 2 ^ 64 := by simpa [sumSizes] using hfit
    simp only [bumpCategory, sumSizes, List.map_cons, List.map_nil, List.sum_cons, List.sum_nil,
      Nat.mod_eq_of_lt hs]
    omega
  | cons kv rest ih =>
    obtain ⟨c, stats⟩ := kv
    have hsum : sumSizes ((c, stats) :: rest) = stats.totalSize + sumSizes rest := by
      simp [sumSizes]
    rw [hsum] at hfit ⊢
    unfold bumpCategory
    by_cases hc : c = category
    · have hlt : stats.totalSize + size < 2 ^ 64 := by omega
      simp only [hc, if_true, sumSizes, List.map_cons, List.sum_cons, Nat.mod_eq_of_lt hlt]
      simp only [sumSizes] at hfit
      omega
    · simp only [hc, if_false]
      have : sumSizes ((c, stats) :: bumpCategory category size rest)
          = stats.totalSize + sumSizes (bumpCategory category size rest) := by
        simp [sumSizes]
      rw [this, ih (by omega)]
      omega

/-- Aggregation keeps both sums equal to the running totals while the bytes
still to come fit in 64 bits. -/
theorem foldl_processVisit_consistent (classify : FileEntry → String)
    (place : FileEntry → String → Option String) :
    ∀ (visits : List Visit) (acc : SortResult),
      sumCounts acc.categories = acc.totalFiles →
      sumSizes acc.categories = acc.totalSize →
      acc.totalSize + visitedBytes visits < 2 ^ 64 →
      sumCounts (visits.foldl (processVisit classify place) acc).categories
        = (visits.foldl (processVisit classify place) acc).totalFiles ∧
      sumSizes (visits.foldl (processVisit classify place) acc).categories
        = (visits.foldl (processVisit classify place) acc).totalSize := by
  intro visits
  induction visits with
  | nil => intro acc hc hs _; exact ⟨hc, hs⟩
  | cons v rest ih =>
    intro acc hc hs hfit
    rw [List.foldl_cons]
    cases v with
    | unsupported path =>
      apply ih
      · exact hc
      · exact hs
      · simpa [processVisit, visitedBytes] using hfit
    | regular entry =>
      simp only [visitedBytes] at hfit
      cases hp : place entry (classify entry) with
      | some reason =>
        apply ih
        · simpa [processVisit, hp] using hc
        · simpa [processVisit, hp] using hs
        · simp only [processVisit, hp]; omega
      | none =>
        have hlt : acc.totalSize + entry.size < 2 ^ 64 := by omega
        apply ih
        · simp only [processVisit, hp, sumCounts_bumpCategory, hc]
        · simp only [processVisit, hp, Nat.mod_eq_of_lt hlt]
          rw [sumSizes_bumpCategory _ _ _ (by omega), hs]
        · simp only [processVisit, hp, Nat.mod_eq_of_lt hlt]; omega

/-- C8: for a source whose visited files total less than `2 ^ 64` bytes, the
statistics the engine produces satisfy `sum(categories[*].count) =
total_files` and `sum(categories[*].total_size) = total_size`, whatever the
classification and whichever placements fail; and for `a.jpg` (10000 bytes) and
`b.pdf` (2000 bytes), criterion `type`, non-recursive, the result is 2 files,
12000 bytes, images 1 / 10000 and documents 1 / 2000. -/
theorem sortFiles_statistics_consistent (classify : FileEntry → String)
    (place : FileEntry → String → Option String) (recursive : Bool) (source : List FsNode)
    (hfit : visitedBytes (traverse recursive source) < 2 ^ 64) :
    sumCounts (sortFiles classify place recursive source).categories
      = (sortFiles classify place recursive source).totalFiles ∧
    sumSizes (sortFiles classify place recursive source).categories
      = (sortFiles classify place recursive source).totalSize ∧
    sortFiles classifyByType (fun _ _ => none) false
        [FsNode.file { path := "a.jpg", size := 10000, modified := 0, extension := ".jpg" },
         FsNode.file { path := "b.pdf", size := 2000, modified := 0, extension := ".pdf" }]
      = { totalFiles := 2, totalSize := 12000,
          categories := [("images", { count := 1, totalSize := 10000 }),
                         ("documents", { count := 1, totalSize := 2000 })],
          failures := [] } := by
  have h := foldl_processVisit_consistent classify place (traverse recursive source)
    SortResult.empty rfl rfl (by simpa [SortResult.empty] using hfit)
  exact ⟨h.1, h.2, by decide⟩

/-- Witness for `sortFiles_statistics_consistent`: a recursive sort over a
nested directory in which one placement fails. -/
theorem sortFiles_statistics_consistent_witness :
    visitedBytes (traverse true
      [FsNode.file { path := "a.jpg", size := 10000, modified := 0, extension := ".jpg" },
       FsNode.dir "sub"
         [FsNode.file { path := "sub/b.pdf", size := 2000, modified := 0, extension := ".pdf" },
          FsNode.special "sub/link"]]) < 2 ^ 64 ∧
    sumCounts (sortFiles classifyByType
      (fun entry _ => if entry.path = "a.jpg" then some "io-error" else none) true
      [FsNode.file { path := "a.jpg", size := 10000, modified := 0, extension := ".jpg" },
       FsNode.dir "sub"
         [FsNode.file { path := "sub/b.pdf", size := 2000, modified := 0, extension := ".pdf" },
          FsNode.special "sub/link"]]).categories
      = (sortFiles classifyByType
      (fun entry _ => if entry.path = "a.jpg" then some "io-error" else none) true
      [FsNode.file { path := "a.jpg", size := 10000, modified := 0, extension := ".jpg" },
       FsNode.dir "sub"
         [FsNode.file { path := "sub/b.pdf", size := 2000, modified := 0, extension := ".pdf" },
          FsNode.special "sub/link"]]).totalFiles :=
  ⟨by decide,
   (sortFiles_statistics_consistent classifyByType
      (fun entry _ => if entry.path = "a.jpg" then some "io-error" else none) true
      [FsNode.file { path := "a.jpg", size := 10000, modified := 0, extension := ".jpg" },
       FsNode.dir "sub"
         [FsNode.file { path := "sub/b.pdf", size := 2000, modified := 0, extension := ".pdf" },
          FsNode.special "sub/link"]] (by decide)).1⟩

/-! ## C11 to C13 -/

/-- C11: for input whose trim is empty, `handleSubmit` sends no request and
changes no state: `messages`, `input`, `isLoading` and `error` are as before,
and the form does not accept the submit either. -/
theorem handleSubmit_blank_input (s : ChatState) (sentAt repliedAt : String) (r : FetchResult)
    (hblank : jsTrim s.input = "") :
    handleSubmitStart s sentAt = (s, none) ∧
    handleSubmit s sentAt r repliedAt = (none, s) ∧
    (handleSubmit s sentAt r repliedAt).2.messages = s.messages ∧
    (handleSubmit s sentAt r repliedAt).2.input = s.input ∧
    (handleSubmit s sentAt r repliedAt).2.isLoading = s.isLoading ∧
    (handleSubmit s sentAt r repliedAt).2.error = s.error ∧
    ∀ pending : List ChatRequest,
      chatStep { ui := s, pending := pending } (ChatEvent.submit sentAt) = none := by
  have hstart : handleSubmitStart s sentAt = (s, none) := by
    simp [handleSubmitStart, hblank]
  have hall : handleSubmit s sentAt r repliedAt = (none, s) := by
    simp [handleSubmit, hstart]
  refine ⟨hstart, hall, ?_, ?_, ?_, ?_, ?_⟩
  · rw [hall]
  · rw [hall]
  · rw [hall]
  · rw [hall]
  · intro pending
    simp [chatStep, hblank]

/-- Witness for `handleSubmit_blank_input`: a space, a tab, a line feed and a
no-break space, with a transcript and an error already on screen. -/
theorem handleSubmit_blank_input_witness :
    jsTrim " \t\n\u00a0" = "" ∧
    handleSubmit
        { messages := [{ type := "ai", content := JVal.str "Hi!", timestamp := "10:00:01" }],
          input := " \t\n\u00a0", isLoading := false,
          error := some "Failed to get response. Please try again." }
        "10:00:02" (FetchResult.rejected "Failed to fetch") "10:00:03"
      = (none,
         { messages := [{ type := "ai", content := JVal.str "Hi!", timestamp := "10:00:01" }],
           input := " \t\n\u00a0", isLoading := false,
           error := some "Failed to get response. Please try again." }) :=
  ⟨by decide,
   (handleSubmit_blank_input
      { messages := [{ type := "ai", content := JVal.str "Hi!", timestamp := "10:00:01" }],
        input := " \t\n\u00a0", isLoading := false,
        error := some "Failed to get response. Please try again." }
      "10:00:02" "10:00:03" (FetchResult.rejected "Failed to fetch") (by decide)).2.1⟩

/-- C12: for a failed chat request (rejected `fetch` or non-2xx response) no
`ai` message is appended and `isLoading` ends false: after `handleSubmit` with
non-blank input, `messages` is the previous messages followed by the user
message only, with error `Failed to get response. Please try again.`; after
`handleSyncAll`, from any state and whatever the text field holds, `messages`
is unchanged, with error `Failed to sync services. Please try again.`. -/
theorem chat_failed_request (s : ChatState) (sentAt repliedAt : String) (r : FetchResult)
    (hfail : r.failed = true) :
    (jsTrim s.input ≠ "" →
      handleSubmit s sentAt r repliedAt
        = (some (ChatRequest.query (JVal.obj [("query", JVal.str s.input)])),
           { messages := s.messages ++
               [{ type := "user", content := JVal.str s.input, timestamp := sentAt }],
             input := "", isLoading := false,
             error := some "Failed to get response. Please try again." })) ∧
    handleSyncAll s r repliedAt
      = { messages := s.messages, input := s.input, isLoading := false,
          error := some "Failed to sync services. Please try again." } := by
  cases r with
  | rejected message =>
    refine ⟨fun hin => ?_, ?_⟩
    · simp [handleSubmit, handleSubmitStart, hin, handleSubmitSettle, replyContent]
    · simp [handleSyncAll, handleSyncAllStart, handleSyncAllSettle, replyContent]
  | response status json =>
    have hst : statusOk status = false := by
      simpa [FetchResult.failed] using hfail
    refine ⟨fun hin => ?_, ?_⟩
    · simp [handleSubmit, handleSubmitStart, hin, handleSubmitSettle, replyContent, hst]
    · simp [handleSyncAll, handleSyncAllStart, handleSyncAllSettle, replyContent, hst]

/-- Witness for `chat_failed_request`: a sync from the freshly mounted
component (empty text field) answered by an HTTP 503 that carries a body, and a
submit of `hello` whose `fetch` rejects. -/
theorem chat_failed_request_witness :
    ((FetchResult.response 503
        (Except.ok (JVal.obj [("response", JVal.str "unavailable")]))).failed = true ∧
      handleSyncAll ChatState.initial
          (FetchResult.response 503 (Except.ok (JVal.obj [("response", JVal.str "unavailable")])))
          "10:00:05"
        = { messages := [], input := "", isLoading := false,
            error := some "Failed to sync services. Please try again." }) ∧
    ((FetchResult.rejected "Failed to fetch").failed = true ∧ jsTrim "hello" ≠ "" ∧
      handleSubmit
          { messages := [{ type := "ai", content := JVal.str "Hi!", timestamp := "10:00:00" }],
            input := "hello", isLoading := false, error := none }
          "10:00:04" (FetchResult.rejected "Failed to fetch") "10:00:05"
        = (some (ChatRequest.query (JVal.obj [("query", JVal.str "hello")])),
           { messages := [{ type := "ai", content := JVal.str "Hi!", timestamp := "10:00:00" }] ++
               [{ type := "user", content := JVal.str "hello", timestamp := "10:00:04" }],
             input := "", isLoading := false,
             error := some "Failed to get response. Please try again." })) :=
  ⟨⟨by decide,
    (chat_failed_request ChatState.initial "10:00:04" "10:00:05"
      (FetchResult.response 503 (Except.ok (JVal.obj [("response", JVal.str "unavailable")])))
      (by decide)).2⟩,
   ⟨by decide, by decide,
    (chat_failed_request
      { messages := [{ type := "ai", content := JVal.str "Hi!", timestamp := "10:00:00" }],
        input := "hello", isLoading := false, error := none }
      "10:00:04" "10:00:05" (FetchResult.rejected "Failed to fetch") (by decide)).1
      (by decide)⟩⟩

/-- C13 (the code at the failing input): for 1536 bytes the exponent is 1 and
the exact scaled value is 1.5, but `Math.round` ignores the precision argument
`2` and rounds to the integer 2: `formatSize` returns `2 KB`, not `1.5 KB`,
and the number shown is off by 0.5, more than 0.005. -/
theorem formatSize_1536_drops_decimals :
    (1 ≤ 1536 ∧ 1536 < 1024 ^ 4) ∧
    floorLog1024 1536 = 1 ∧
    mathRound 1536 (1024 ^ floorLog1024 1536) = 2 ∧
    formatSize 1536 = "2 KB" ∧
    formatSize 1536 ≠ "1.5 KB" ∧
    (5 / 1000 : ℚ) <
      |((mathRound 1536 (1024 ^ floorLog1024 1536) : Nat) : ℚ)
        - (1536 : ℚ) / (1024 : ℚ) ^ floorLog1024 1536| := by
  have hi : floorLog1024 1536 = 1 := by decide
  have hn : mathRound 1536 (1024 ^ floorLog1024 1536) = 2 := by decide
  refine ⟨by decide, hi, hn, by decide, by decide, ?_⟩
  rw [hn, hi]
  norm_num [abs_of_pos]

end Darion
